import Mathlib

/-!
Verification of the contk `_utils/file_utils.py` resource cache.

The module resolves a logical resource name to a verified local path:
`get_resource` downloads on a cache miss, verifies a digest, and persists a
metadata side-car file; on a cache hit it re-verifies the stored artifact.
`import_local_benchmark` side-loads an already-local artifact.

Shallow embedding choices:
- The filesystem is an association list from paths to entries, with
  write-shadowing (`FS.set` conses, `FS.get` returns the first match).
- A metadata side-car file (the JSON `\x7b'local_path': p\x7d` written by
  `json.dump` and read back by `json.load`) is modelled structurally as
  `Entry.meta p`; a raw artifact file is `Entry.file content`.  A raw file
  sitting at a metadata path does not parse as metadata (`json.load` /
  key-lookup failure), modelled by the `Err.jsonDecode` branch.
- The descriptor source (`get_config`, which reads `CONFIG_DIR/<name>.json`)
  is an association list from resource names to `Config` records; a missing
  config file raises Python `FileNotFoundError`, modelled as
  `Err.fileNotFound`.
- The content hasher delegates to the external libraries `hashlib`
  (`get_file_md5`) and `checksumdir` (`dirhash`); the digest function over
  file bytes is therefore a parameter `h : Content -> String` of the model.
  The source's concrete algorithm choice (`hashlib.md5()`,
  `dirhash(file_path, 'md5')`) is recorded separately by
  `get_file_md5_algorithm` and `get_hashtag_algorithm`.
- The network (`http_get` via `requests`) is a total function from URLs to
  the bytes it streams; `RunResult.fetched` records whether the miss branch
  (the only call site of `http_get`) ran, i.e. whether a network transfer
  happened.
- `preprocess` and `postprocess` are the identity on paths, exactly as in
  the source (both bodies are `return local_path`).
-/

namespace Contk

abbrev Path := String

abbrev Content := String

/-- A resource descriptor as stored in `CONFIG_DIR/<name>.json`:
the fields `link`, `type` and `hashtag` read by `get_resource` and
`import_local_benchmark`. -/
structure Config where
  link : String
  res_type : String
  hashtag : String
deriving DecidableEq

/-- An on-disk entry: a raw artifact file with its bytes, or a metadata
side-car file recording a `local_path` (the parsed form of the JSON written
at line 126-127 / 160-161 of file_utils.py). -/
inductive Entry where
  | file (content : Content)
  | meta (local_path : Path)
deriving DecidableEq

/-- The bytes of an entry, as seen by the hasher.  A metadata file's
serialized form is injective in its recorded path, which is all the model
needs. -/
def Entry.bytes : Entry → Content
  | .file c => c
  | .meta p => p

/-- The filesystem: association list with write-shadowing. -/
abbrev FS := List (Path × Entry)

/-- Read a path: first matching binding wins. -/
def FS.get : FS → Path → Option Entry
  | [], _ => none
  | (q, e) :: rest, p => if q = p then some e else FS.get rest p

/-- Write a path (overwrite semantics via shadowing). -/
def FS.set (s : FS) (p : Path) (e : Entry) : FS := (p, e) :: s

/-- The descriptor source: resource name to descriptor. -/
abbrev Configs := List (String × Config)

/-- Lookup of a resource name in the descriptor source. -/
def Configs.find : Configs → String → Option Config
  | [], _ => none
  | (n, c) :: rest, m => if n = m then some c else Configs.find rest m

/-- The network: maps a URL to the bytes `http_get` streams from it. -/
abbrev Net := String → Content

/-- Errors raised by the module: Python `FileNotFoundError` (missing config
file, or `open` of a missing artifact inside the hasher), the
`ValueError("bad hashtag of ...")` raised on digest mismatch, and a JSON
decode failure when a metadata path holds bytes that do not parse as
metadata. -/
inductive Err where
  | fileNotFound (path : Path)
  | badHashtag (res_name : String)
  | jsonDecode (path : Path)
deriving DecidableEq

/-- The `HOME` environment variable, abstracted as a fixed string. -/
def HOME : Path := "~"

/-- DATASET_CACHE_PATH = os.path.join(os.getenv('HOME'), 'dataset_cache'). -/
def DATASET_CACHE_PATH : Path := HOME ++ "/dataset_cache"

/-- CONFIG_DIR = '.' -/
def CONFIG_DIR : Path := "."

/-- config_path = os.path.join(CONFIG_DIR, res_name + '.json') in get_config. -/
def config_path_of (res_name : String) : Path := CONFIG_DIR ++ "/" ++ res_name ++ ".json"

/-- cache_path = os.path.join(cache_dir, res_name) in get_resource. -/
def cache_path_of (res_name : String) : Path := DATASET_CACHE_PATH ++ "/" ++ res_name

/-- meta_path = cache_path + '.json' in get_resource (and the same path built
in import_local_benchmark). -/
def meta_path_of (res_name : String) : Path := cache_path_of res_name ++ ".json"

/-- get_config: reads `CONFIG_DIR/<name>.json`; raises FileNotFoundError when
no descriptor is registered for the name. -/
def get_config (cfgs : Configs) (res_name : String) : Except Err Config :=
  match Configs.find cfgs res_name with
  | none => .error (.fileNotFound (config_path_of res_name))
  | some c => .ok c

/-- preprocess(local_path, res_type): identity in the source (body is a todo
returning local_path). -/
def preprocess (local_path : Path) (res_type : String) : Path := local_path

/-- postprocess(local_path, res_type): identity in the source (body is a todo
returning local_path). -/
def postprocess (local_path : Path) (res_type : String) : Path := local_path

/-- get_hashtag: digest of the entry at a path.  Opening a missing path
raises FileNotFoundError (Python: `os.path.isdir` is false for a missing
path, so `get_file_md5` opens it and `open` raises).  The digest function
over the entry's bytes is the parameter `h` (hashlib / checksumdir are
external libraries). -/
def get_hashtag (h : Content → String) (s : FS) (file_path : Path) : Except Err String :=
  match FS.get s file_path with
  | none => .error (.fileNotFound file_path)
  | some e => .ok (h e.bytes)

instance : DecidableEq (Except Err Path) := fun x y =>
  match x, y with
  | .error a, .error b =>
    if h : a = b then .isTrue (by rw [h]) else .isFalse (by simp [h])
  | .error _, .ok _ => .isFalse (by simp)
  | .ok _, .error _ => .isFalse (by simp)
  | .ok a, .ok b =>
    if h : a = b then .isTrue (by rw [h]) else .isFalse (by simp [h])

/-- Outcome of one `get_resource` / `import_local_benchmark` call: the
returned path or raised error, the filesystem after the call, and whether
`http_get` was invoked (a network transfer happened). -/
structure RunResult where
  result : Except Err Path
  fs : FS
  fetched : Bool
deriving DecidableEq

/-- True when the call raised (result is an error). -/
def RunResult.failed (r : RunResult) : Bool :=
  match r.result with
  | .error _ => true
  | .ok _ => false

/-- get_resource (file_utils.py lines 86-144): descriptor lookup, then
cache-miss branch (download to a temp file, copy to `cache_path`, preprocess,
digest, compare; on match write the metadata side-car, on mismatch raise) or
cache-hit branch (read metadata, re-digest the stored artifact, compare; no
download either way). -/
def get_resource (h : Content → String) (cfgs : Configs) (net : Net)
    (s : FS) (res_name : String) : RunResult :=
  match get_config cfgs res_name with
  | .error e => ⟨.error e, s, false⟩
  | .ok config =>
    let cache_path := cache_path_of res_name
    let meta_path := meta_path_of res_name
    match FS.get s meta_path with
    | none =>
      let content := net config.link
      let s1 := FS.set s cache_path (Entry.file content)
      let cache_path1 := preprocess cache_path config.res_type
      match get_hashtag h s1 cache_path1 with
      | .error e => ⟨.error e, s1, true⟩
      | .ok cache_hashtag =>
        if cache_hashtag = config.hashtag then
          ⟨.ok (postprocess cache_path1 config.res_type),
            FS.set s1 meta_path (Entry.meta cache_path1), true⟩
        else
          ⟨.error (.badHashtag res_name), s1, true⟩
    | some (Entry.file _) => ⟨.error (.jsonDecode meta_path), s, false⟩
    | some (Entry.meta local_path) =>
      match get_hashtag h s local_path with
      | .error e => ⟨.error e, s, false⟩
      | .ok cache_hashtag =>
        if cache_hashtag = config.hashtag then
          ⟨.ok (postprocess local_path config.res_type), s, false⟩
        else
          ⟨.error (.badHashtag res_name), s, false⟩

/-- import_local_benchmark (file_utils.py lines 147-166): descriptor lookup,
digest the given local path directly (no download), compare; on match write
the metadata side-car pointing at the local path, on mismatch raise. -/
def import_local_benchmark (h : Content → String) (cfgs : Configs)
    (s : FS) (res_name : String) (local_path : Path) : RunResult :=
  match get_config cfgs res_name with
  | .error e => ⟨.error e, s, false⟩
  | .ok config =>
    match get_hashtag h s local_path with
    | .error e => ⟨.error e, s, false⟩
    | .ok local_hashtag =>
      if local_hashtag = config.hashtag then
        ⟨.ok (postprocess local_path config.res_type),
          FS.set s (meta_path_of res_name) (Entry.meta local_path), false⟩
      else
        ⟨.error (.badHashtag res_name), s, false⟩

/-- import_local_resource (file_utils.py lines 169-173). -/
def import_local_resource (local_path : Path) (res_type : String) : Path :=
  postprocess local_path res_type

/-- The filesystem states at which the process could be interrupted during
the cache-miss branch of get_resource, strictly before the metadata write:
at entry (download still in the private temp file), and after the artifact
has been copied to its final cache location but before the side-car write.
There is no other filesystem write in the branch. -/
def miss_pre_commit_states (net : Net) (cfg : Config) (s : FS)
    (res_name : String) : List FS :=
  [s, FS.set s (cache_path_of res_name) (Entry.file (net cfg.link))]

/-- The hash algorithm get_file_md5 constructs: `hashlib.md5()`. -/
def get_file_md5_algorithm : String := "md5"

/-- The hash algorithm get_hashtag uses: `dirhash(file_path, 'md5')` for a
directory, `get_file_md5` for a file. -/
def get_hashtag_algorithm (is_dir : Bool) : String :=
  if is_dir then "md5" else get_file_md5_algorithm

/-- Digest size in bits of the hashlib / checksumdir algorithm names used in
this repository's ecosystem (md5 = 128, sha1 = 160, sha256 = 256). -/
def digestBits (alg : String) : Nat :=
  if alg = "md5" then 128
  else if alg = "sha1" then 160
  else if alg = "sha256" then 256
  else 0

theorem FS.get_set_same (s : FS) (p : Path) (e : Entry) :
    FS.get (FS.set s p e) p = some e := by
  simp [FS.set, FS.get]

theorem FS.get_set_ne (s : FS) (p q : Path) (e : Entry) (hne : p ≠ q) :
    FS.get (FS.set s p e) q = FS.get s q := by
  simp [FS.set, FS.get, hne]

theorem cache_path_ne_meta_path (n : String) :
    cache_path_of n ≠ meta_path_of n := by
  intro hEq
  have h1 := congrArg String.length hEq
  rw [meta_path_of, String.length_append] at h1
  have h2 : (".json" : String).length = 5 := rfl
  omega

theorem miss_branch_fetches (h : Content → String) (cfgs : Configs)
    (net : Net) (s : FS) (res_name : String) (cfg : Config)
    (hcfg : Configs.find cfgs res_name = some cfg)
    (hmiss : FS.get s (meta_path_of res_name) = none) :
    (get_resource h cfgs net s res_name).fetched = true := by
  have hget := FS.get_set_same s (cache_path_of res_name)
    (Entry.file (net cfg.link))
  by_cases htag : h (net cfg.link) = cfg.hashtag <;>
    simp [get_resource, get_config, hcfg, hmiss, get_hashtag, preprocess,
      hget, Entry.bytes, htag]

theorem get_resource_hit_fs (h : Content → String) (cfgs : Configs)
    (net : Net) (s : FS) (res_name : String) (e : Entry)
    (hmeta : FS.get s (meta_path_of res_name) = some e) :
    (get_resource h cfgs net s res_name).fs = s := by
  cases hc : get_config cfgs res_name with
  | error err => simp [get_resource, hc]
  | ok cfg =>
    cases e with
    | file c => simp [get_resource, hc, hmeta]
    | meta lp =>
      cases hh : get_hashtag h s lp with
      | error err => simp [get_resource, hc, hmeta, hh]
      | ok tag =>
        by_cases htag : tag = cfg.hashtag <;>
          simp [get_resource, hc, hmeta, hh, htag]

/-- C2 counterexample: with descriptor hashtag "good" but downloaded bytes
"bad", resolve fails and creates no metadata, but the cache directory does
contain an artifact under the key: the copy written to cache_path before the
digest check is not removed on the failure path (only the temp file is
discarded), refuting the claim that the cache directory contains no artifact
under that key. -/
theorem miss_mismatch_leaves_artifact_counterexample :
    (get_resource (fun c => c) [("demo", ⟨"u", "t", "good"⟩)] (fun _ => "bad")
        [] "demo").result = .error (.badHashtag "demo")
      ∧ FS.get (get_resource (fun c => c) [("demo", ⟨"u", "t", "good"⟩)]
          (fun _ => "bad") [] "demo").fs (meta_path_of "demo") = none
      ∧ FS.get (get_resource (fun c => c) [("demo", ⟨"u", "t", "good"⟩)]
          (fun _ => "bad") [] "demo").fs (cache_path_of "demo")
        = some (Entry.file "bad") := by decide

/-- C2 amended: on a cache miss whose downloaded bytes digest differently
from the descriptor's expected digest, resolve fails with the integrity
error and no metadata file is created for the key, so a retried call still
behaves as a fresh miss (it fetches again); however the downloaded copy
remains at the cache location — only the private temp file is discarded, the
file already copied to cache_path is not removed. -/
theorem miss_mismatch_no_commit (h : Content → String) (cfgs : Configs)
    (net : Net) (s : FS) (res_name : String) (cfg : Config)
    (hcfg : Configs.find cfgs res_name = some cfg)
    (hmiss : FS.get s (meta_path_of res_name) = none)
    (hbad : h (net cfg.link) ≠ cfg.hashtag) :
    (get_resource h cfgs net s res_name).result = .error (.badHashtag res_name)
      ∧ FS.get (get_resource h cfgs net s res_name).fs (meta_path_of res_name)
          = none
      ∧ FS.get (get_resource h cfgs net s res_name).fs (cache_path_of res_name)
          = some (Entry.file (net cfg.link))
      ∧ (get_resource h cfgs net (get_resource h cfgs net s res_name).fs
          res_name).fetched = true := by
  have hget := FS.get_set_same s (cache_path_of res_name)
    (Entry.file (net cfg.link))
  have hmp := FS.get_set_ne s (cache_path_of res_name) (meta_path_of res_name)
    (Entry.file (net cfg.link)) (cache_path_ne_meta_path res_name)
  have hfs : (get_resource h cfgs net s res_name).fs
      = FS.set s (cache_path_of res_name) (Entry.file (net cfg.link)) := by
    simp [get_resource, get_config, hcfg, hmiss, get_hashtag, preprocess,
      hget, Entry.bytes, hbad]
  refine ⟨?_, ?_, ?_, ?_⟩
  · simp [get_resource, get_config, hcfg, hmiss, get_hashtag, preprocess,
      hget, Entry.bytes, hbad]
  · rw [hfs, hmp]; exact hmiss
  · rw [hfs, hget]
  · exact miss_branch_fetches h cfgs net _ res_name cfg hcfg (by rw [hfs, hmp]; exact hmiss)

/-- Witness for the C2 amended theorem at a concrete input. -/
theorem miss_mismatch_no_commit_witness :
    (get_resource (fun c => c) [("demo", ⟨"u", "t", "good"⟩)] (fun _ => "bad")
        [("other", Entry.file "o")] "demo").result = .error (.badHashtag "demo")
      ∧ FS.get (get_resource (fun c => c) [("demo", ⟨"u", "t", "good"⟩)]
          (fun _ => "bad") [("other", Entry.file "o")] "demo").fs
          (meta_path_of "demo") = none
      ∧ FS.get (get_resource (fun c => c) [("demo", ⟨"u", "t", "good"⟩)]
          (fun _ => "bad") [("other", Entry.file "o")] "demo").fs
          (cache_path_of "demo") = some (Entry.file "bad")
      ∧ (get_resource (fun c => c) [("demo", ⟨"u", "t", "good"⟩)]
          (fun _ => "bad")
          (get_resource (fun c => c) [("demo", ⟨"u", "t", "good"⟩)]
            (fun _ => "bad") [("other", Entry.file "o")] "demo").fs
          "demo").fetched = true :=
  miss_mismatch_no_commit (fun c => c) [("demo", ⟨"u", "t", "good"⟩)]
    (fun _ => "bad") [("other", Entry.file "o")] "demo" ⟨"u", "t", "good"⟩
    (by decide) (by decide) (by decide)

/-- C1: in the cache-miss branch the metadata side-car is written only after
the artifact is at its final cache location with a verified digest.  First
conjunct: at every interruption point strictly before the metadata write
(call entry, and after the artifact copy), the metadata file is absent and a
subsequent resolve takes the miss branch and re-fetches.  Second conjunct:
whenever the call does leave metadata behind, the artifact is present at the
final cache location, its digest matches the descriptor, and the call
succeeded returning that location. -/
theorem commit_order_atomic (h : Content → String) (cfgs : Configs)
    (net : Net) (s : FS) (res_name : String) (cfg : Config)
    (hcfg : Configs.find cfgs res_name = some cfg)
    (hmiss : FS.get s (meta_path_of res_name) = none) :
    (∀ t ∈ miss_pre_commit_states net cfg s res_name,
        FS.get t (meta_path_of res_name) = none
          ∧ (get_resource h cfgs net t res_name).fetched = true)
      ∧ (FS.get (get_resource h cfgs net s res_name).fs (meta_path_of res_name)
            ≠ none →
          FS.get (get_resource h cfgs net s res_name).fs (cache_path_of res_name)
              = some (Entry.file (net cfg.link))
            ∧ h (net cfg.link) = cfg.hashtag
            ∧ (get_resource h cfgs net s res_name).result
              = .ok (cache_path_of res_name)) := by
  have hget := FS.get_set_same s (cache_path_of res_name)
    (Entry.file (net cfg.link))
  have hmp := FS.get_set_ne s (cache_path_of res_name) (meta_path_of res_name)
    (Entry.file (net cfg.link)) (cache_path_ne_meta_path res_name)
  have hmiss1 : FS.get (FS.set s (cache_path_of res_name)
      (Entry.file (net cfg.link))) (meta_path_of res_name) = none := by
    rw [hmp]; exact hmiss
  constructor
  · intro t ht
    simp only [miss_pre_commit_states, List.mem_cons, List.mem_singleton,
      List.not_mem_nil, or_false] at ht
    rcases ht with h1 | h1 <;> rw [h1]
    · exact ⟨hmiss, miss_branch_fetches h cfgs net s res_name cfg hcfg hmiss⟩
    · exact ⟨hmiss1, miss_branch_fetches h cfgs net _ res_name cfg hcfg hmiss1⟩
  · intro hsome
    by_cases htag : h (net cfg.link) = cfg.hashtag
    · have hfs : (get_resource h cfgs net s res_name).fs
          = FS.set (FS.set s (cache_path_of res_name)
              (Entry.file (net cfg.link))) (meta_path_of res_name)
              (Entry.meta (cache_path_of res_name)) := by
        simp [get_resource, get_config, hcfg, hmiss, get_hashtag, preprocess,
          hget, Entry.bytes, htag]
      refine ⟨?_, htag, ?_⟩
      · rw [hfs, FS.get_set_ne _ _ _ _ (cache_path_ne_meta_path res_name).symm,
          hget]
      · simp [get_resource, get_config, hcfg, hmiss, get_hashtag, preprocess,
          postprocess, hget, Entry.bytes, htag]
    · exfalso
      apply hsome
      have hfs : (get_resource h cfgs net s res_name).fs
          = FS.set s (cache_path_of res_name) (Entry.file (net cfg.link)) := by
        simp [get_resource, get_config, hcfg, hmiss, get_hashtag, preprocess,
          hget, Entry.bytes, htag]
      rw [hfs]; exact hmiss1

/-- Witness for C1 at a concrete input: a successful first download. -/
theorem commit_order_atomic_witness :
    (∀ t ∈ miss_pre_commit_states (fun _ => "good") ⟨"u", "t", "good"⟩ [] "demo",
        FS.get t (meta_path_of "demo") = none
          ∧ (get_resource (fun c => c) [("demo", ⟨"u", "t", "good"⟩)]
              (fun _ => "good") t "demo").fetched = true)
      ∧ (FS.get (get_resource (fun c => c) [("demo", ⟨"u", "t", "good"⟩)]
            (fun _ => "good") [] "demo").fs (meta_path_of "demo") ≠ none →
          FS.get (get_resource (fun c => c) [("demo", ⟨"u", "t", "good"⟩)]
              (fun _ => "good") [] "demo").fs (cache_path_of "demo")
              = some (Entry.file "good")
            ∧ (fun (c : Content) => c) "good" = "good"
            ∧ (get_resource (fun c => c) [("demo", ⟨"u", "t", "good"⟩)]
                (fun _ => "good") [] "demo").result
              = .ok (cache_path_of "demo")) :=
  commit_order_atomic (fun c => c) [("demo", ⟨"u", "t", "good"⟩)]
    (fun _ => "good") [] "demo" ⟨"u", "t", "good"⟩ (by decide) (by decide)

/-- C8: for every resource name with no registered descriptor, descriptor
lookup — and hence get_resource and import_local_benchmark — fails with the
not-found error (Python FileNotFoundError for the missing config file), and
this error is raised before any network or cache activity: the filesystem is
returned unchanged and no fetch happens. -/
theorem missing_descriptor_not_found (h : Content → String) (cfgs : Configs)
    (net : Net) (s : FS) (res_name : String) (local_path : Path)
    (hnone : Configs.find cfgs res_name = none) :
    get_resource h cfgs net s res_name
        = ⟨.error (.fileNotFound (config_path_of res_name)), s, false⟩
      ∧ import_local_benchmark h cfgs s res_name local_path
        = ⟨.error (.fileNotFound (config_path_of res_name)), s, false⟩ := by
  constructor <;> simp [get_resource, import_local_benchmark, get_config, hnone]

/-- Witness for C8 at a concrete input: empty descriptor source. -/
theorem missing_descriptor_not_found_witness :
    get_resource (fun c => c) [] (fun _ => "x") [] "demo"
        = ⟨.error (.fileNotFound (config_path_of "demo")), [], false⟩
      ∧ import_local_benchmark (fun c => c) [] [] "demo" "p"
        = ⟨.error (.fileNotFound (config_path_of "demo")), [], false⟩ :=
  missing_descriptor_not_found (fun c => c) [] (fun _ => "x") [] "demo" "p" rfl

/-- C3: on a resolve call that finds existing cache metadata, the digest of
the stored artifact is recomputed and compared to the descriptor's expected
digest; on mismatch the call fails with the integrity error (the ValueError
"bad hashtag") and no fetch happens (the network is never consulted on the
cache-hit path). -/
theorem cache_hit_mismatch_integrity_error (h : Content → String)
    (cfgs : Configs) (net : Net) (s : FS) (res_name lp : String)
    (c : Content) (cfg : Config)
    (hcfg : Configs.find cfgs res_name = some cfg)
    (hmeta : FS.get s (meta_path_of res_name) = some (Entry.meta lp))
    (hart : FS.get s lp = some (Entry.file c))
    (hne : h c ≠ cfg.hashtag) :
    (get_resource h cfgs net s res_name).result = .error (.badHashtag res_name)
      ∧ (get_resource h cfgs net s res_name).fetched = false := by
  constructor <;>
    simp [get_resource, get_config, hcfg, hmeta, get_hashtag, hart, Entry.bytes, hne]

/-- Witness for C3 at a concrete input: cached artifact digests to a value
different from the descriptor hashtag. -/
theorem cache_hit_mismatch_integrity_error_witness :
    (get_resource (fun c => c) [("demo", ⟨"u", "t", "good"⟩)] (fun _ => "x")
        [(meta_path_of "demo", Entry.meta "p"), ("p", Entry.file "bad")]
        "demo").result = .error (.badHashtag "demo")
      ∧ (get_resource (fun c => c) [("demo", ⟨"u", "t", "good"⟩)] (fun _ => "x")
        [(meta_path_of "demo", Entry.meta "p"), ("p", Entry.file "bad")]
        "demo").fetched = false :=
  cache_hit_mismatch_integrity_error (fun c => c) [("demo", ⟨"u", "t", "good"⟩)]
    (fun _ => "x") [(meta_path_of "demo", Entry.meta "p"), ("p", Entry.file "bad")]
    "demo" "p" "bad" ⟨"u", "t", "good"⟩ (by decide) (by decide) (by decide) (by decide)

/-- C9: if the metadata file for a cache key exists but the artifact at the
local_path it records is absent, get_resource does not treat the key as a
miss and does not re-fetch: it fails with the file-not-found error raised
while recomputing the digest of the missing artifact. -/
theorem cache_hit_missing_artifact (h : Content → String) (cfgs : Configs)
    (net : Net) (s : FS) (res_name lp : String) (cfg : Config)
    (hcfg : Configs.find cfgs res_name = some cfg)
    (hmeta : FS.get s (meta_path_of res_name) = some (Entry.meta lp))
    (habs : FS.get s lp = none) :
    (get_resource h cfgs net s res_name).result = .error (.fileNotFound lp)
      ∧ (get_resource h cfgs net s res_name).fetched = false := by
  constructor <;>
    simp [get_resource, get_config, hcfg, hmeta, get_hashtag, habs]

/-- Witness for C9 at a concrete input: metadata points at an absent path. -/
theorem cache_hit_missing_artifact_witness :
    (get_resource (fun c => c) [("demo", ⟨"u", "t", "good"⟩)] (fun _ => "x")
        [(meta_path_of "demo", Entry.meta "p")] "demo").result
      = .error (.fileNotFound "p")
      ∧ (get_resource (fun c => c) [("demo", ⟨"u", "t", "good"⟩)] (fun _ => "x")
        [(meta_path_of "demo", Entry.meta "p")] "demo").fetched = false :=
  cache_hit_missing_artifact (fun c => c) [("demo", ⟨"u", "t", "good"⟩)]
    (fun _ => "x") [(meta_path_of "demo", Entry.meta "p")] "demo" "p"
    ⟨"u", "t", "good"⟩ (by decide) (by decide) (by decide)

/-- C10: on the cache-hit path (metadata present, whatever its content, and
whether verification succeeds or fails) get_resource performs no writes at
all: the filesystem after the call is exactly the filesystem before it, so
the metadata file, the cached artifact and every other file are unchanged. -/
theorem cache_hit_frame (h : Content → String) (cfgs : Configs) (net : Net)
    (s : FS) (res_name : String) (e : Entry)
    (hmeta : FS.get s (meta_path_of res_name) = some e) :
    (get_resource h cfgs net s res_name).fs = s := by
  cases hc : get_config cfgs res_name with
  | error err => simp [get_resource, hc]
  | ok cfg =>
    cases e with
    | file c => simp [get_resource, hc, hmeta]
    | meta lp =>
      cases hh : get_hashtag h s lp with
      | error err => simp [get_resource, hc, hmeta, hh]
      | ok tag =>
        by_cases htag : tag = cfg.hashtag <;>
          simp [get_resource, hc, hmeta, hh, htag]

/-- Witness for C10 at a concrete input: a successful cache hit leaves the
filesystem unchanged. -/
theorem cache_hit_frame_witness :
    (get_resource (fun c => c) [("demo", ⟨"u", "t", "good"⟩)] (fun _ => "x")
        [(meta_path_of "demo", Entry.meta "p"), ("p", Entry.file "good")]
        "demo").fs
      = [(meta_path_of "demo", Entry.meta "p"), ("p", Entry.file "good")] :=
  cache_hit_frame (fun c => c) [("demo", ⟨"u", "t", "good"⟩)] (fun _ => "x")
    [(meta_path_of "demo", Entry.meta "p"), ("p", Entry.file "good")] "demo"
    (Entry.meta "p") (by decide)

/-- C7 counterexample: import_local_benchmark writes the metadata side-car
unconditionally once the digest check passes, without testing whether one
already exists — here a key whose metadata records path "old" is updated in
place to record path "new", refuting the claim that no operation ever
updates a metadata file in place. -/
theorem metadata_overwrite_counterexample :
    FS.get ([(meta_path_of "demo", Entry.meta "old"), ("new", Entry.file "good")] : FS)
        (meta_path_of "demo") = some (Entry.meta "old")
      ∧ FS.get (import_local_benchmark (fun c => c)
          [("demo", ⟨"u", "t", "good"⟩)]
          [(meta_path_of "demo", Entry.meta "old"), ("new", Entry.file "good")]
          "demo" "new").fs (meta_path_of "demo") = some (Entry.meta "new")
      ∧ (import_local_benchmark (fun c => c) [("demo", ⟨"u", "t", "good"⟩)]
          [(meta_path_of "demo", Entry.meta "old"), ("new", Entry.file "good")]
          "demo" "new").result = .ok "new" := by decide

/-- C7 amended: get_resource never updates a metadata file in place — on the
cache-hit path an existing metadata entry is returned unchanged, and on any
failing call the metadata entry for the key is exactly what it was before;
import_local_benchmark likewise leaves the filesystem unchanged whenever its
verification fails; but import_local_benchmark on success writes the
metadata side-car unconditionally, overwriting any existing metadata for the
key. -/
theorem metadata_write_once_amended :
    (∀ (h : Content → String) (cfgs : Configs) (net : Net) (s : FS)
        (res_name : String) (e : Entry),
        FS.get s (meta_path_of res_name) = some e →
        FS.get (get_resource h cfgs net s res_name).fs (meta_path_of res_name)
          = some e)
      ∧ (∀ (h : Content → String) (cfgs : Configs) (net : Net) (s : FS)
          (res_name : String),
          (get_resource h cfgs net s res_name).failed = true →
          FS.get (get_resource h cfgs net s res_name).fs (meta_path_of res_name)
            = FS.get s (meta_path_of res_name))
      ∧ (∀ (h : Content → String) (cfgs : Configs) (s : FS)
          (res_name : String) (local_path : Path),
          (import_local_benchmark h cfgs s res_name local_path).failed = true →
          (import_local_benchmark h cfgs s res_name local_path).fs = s) := by
  refine ⟨?_, ?_, ?_⟩
  · intro h cfgs net s res_name e hmeta
    rw [get_resource_hit_fs h cfgs net s res_name e hmeta]
    exact hmeta
  · intro h cfgs net s res_name hfail
    cases hc : Configs.find cfgs res_name with
    | none => simp [get_resource, get_config, hc]
    | some cfg =>
      cases hm : FS.get s (meta_path_of res_name) with
      | some e =>
        rw [get_resource_hit_fs h cfgs net s res_name e hm]
        exact hm
      | none =>
        have hget := FS.get_set_same s (cache_path_of res_name)
          (Entry.file (net cfg.link))
        have hmp := FS.get_set_ne s (cache_path_of res_name)
          (meta_path_of res_name) (Entry.file (net cfg.link))
          (cache_path_ne_meta_path res_name)
        by_cases htag : h (net cfg.link) = cfg.hashtag
        · exfalso
          simp [RunResult.failed, get_resource, get_config, hc, hm,
            get_hashtag, preprocess, hget, Entry.bytes, htag] at hfail
        · have hfs : (get_resource h cfgs net s res_name).fs
              = FS.set s (cache_path_of res_name)
                  (Entry.file (net cfg.link)) := by
            simp [get_resource, get_config, hc, hm, get_hashtag, preprocess,
              hget, Entry.bytes, htag]
          rw [hfs, hmp]
          rw [hm]
  · intro h cfgs s res_name local_path hfail
    cases hc : Configs.find cfgs res_name with
    | none => simp [import_local_benchmark, get_config, hc]
    | some cfg =>
      cases hh : get_hashtag h s local_path with
      | error err => simp [import_local_benchmark, get_config, hc, hh]
      | ok tag =>
        by_cases htag : tag = cfg.hashtag
        · exfalso
          simp [RunResult.failed, import_local_benchmark, get_config, hc,
            hh, htag] at hfail
        · simp [import_local_benchmark, get_config, hc, hh, htag]

/-- Witness for the C7 amended theorem: a cache hit leaves the existing
metadata entry in place. -/
theorem metadata_write_once_amended_witness :
    FS.get (get_resource (fun c => c) [("demo", ⟨"u", "t", "good"⟩)]
        (fun _ => "x")
        [(meta_path_of "demo", Entry.meta "p"), ("p", Entry.file "good")]
        "demo").fs (meta_path_of "demo") = some (Entry.meta "p") :=
  metadata_write_once_amended.1 (fun c => c) [("demo", ⟨"u", "t", "good"⟩)]
    (fun _ => "x")
    [(meta_path_of "demo", Entry.meta "p"), ("p", Entry.file "good")]
    "demo" (Entry.meta "p") (by decide)

/-- C6: import_local_benchmark digests the given local path directly without
fetching, verifies it against the descriptor's expected digest, and on
success records the path under the resource's cache key exactly as the
cache-miss commit step does (the same metadata side-car write), so that a
subsequent resolve for the name is a cache hit — it returns the same path
and performs no network transfer. -/
theorem import_local_commit (h : Content → String) (cfgs : Configs) (s : FS)
    (res_name : String) (local_path : Path) (c : Content) (cfg : Config)
    (hcfg : Configs.find cfgs res_name = some cfg)
    (hfile : FS.get s local_path = some (Entry.file c))
    (hdig : h c = cfg.hashtag)
    (hne : local_path ≠ meta_path_of res_name) :
    (import_local_benchmark h cfgs s res_name local_path).result
        = .ok local_path
      ∧ (import_local_benchmark h cfgs s res_name local_path).fetched = false
      ∧ FS.get (import_local_benchmark h cfgs s res_name local_path).fs
          (meta_path_of res_name) = some (Entry.meta local_path)
      ∧ ∀ net : Net,
          (get_resource h cfgs net
              (import_local_benchmark h cfgs s res_name local_path).fs
              res_name).result = .ok local_path
            ∧ (get_resource h cfgs net
                (import_local_benchmark h cfgs s res_name local_path).fs
                res_name).fetched = false := by
  have hfs : (import_local_benchmark h cfgs s res_name local_path).fs
      = FS.set s (meta_path_of res_name) (Entry.meta local_path) := by
    simp [import_local_benchmark, get_config, hcfg, get_hashtag, hfile,
      Entry.bytes, hdig]
  have hmeta := FS.get_set_same s (meta_path_of res_name)
    (Entry.meta local_path)
  have hart : FS.get (FS.set s (meta_path_of res_name)
      (Entry.meta local_path)) local_path = some (Entry.file c) := by
    rw [FS.get_set_ne s _ _ _ hne.symm]
    exact hfile
  refine ⟨?_, ?_, ?_, ?_⟩
  · simp [import_local_benchmark, get_config, hcfg, get_hashtag, hfile,
      Entry.bytes, hdig, postprocess]
  · simp [import_local_benchmark, get_config, hcfg, get_hashtag, hfile,
      Entry.bytes, hdig]
  · rw [hfs]; exact hmeta
  · intro net
    rw [hfs]
    constructor <;>
      simp [get_resource, get_config, hcfg, hmeta, get_hashtag, hart,
        Entry.bytes, hdig, postprocess]

/-- Witness for C6 at a concrete input: a matching local artifact is
imported and the following resolve is a hit with no fetch. -/
theorem import_local_commit_witness :
    (import_local_benchmark (fun c => c) [("demo", ⟨"u", "t", "good"⟩)]
        [("local", Entry.file "good")] "demo" "local").result = .ok "local"
      ∧ (import_local_benchmark (fun c => c) [("demo", ⟨"u", "t", "good"⟩)]
          [("local", Entry.file "good")] "demo" "local").fetched = false
      ∧ FS.get (import_local_benchmark (fun c => c)
          [("demo", ⟨"u", "t", "good"⟩)] [("local", Entry.file "good")]
          "demo" "local").fs (meta_path_of "demo")
        = some (Entry.meta "local")
      ∧ ∀ net : Net,
          (get_resource (fun c => c) [("demo", ⟨"u", "t", "good"⟩)] net
              (import_local_benchmark (fun c => c)
                [("demo", ⟨"u", "t", "good"⟩)] [("local", Entry.file "good")]
                "demo" "local").fs "demo").result = .ok "local"
            ∧ (get_resource (fun c => c) [("demo", ⟨"u", "t", "good"⟩)] net
                (import_local_benchmark (fun c => c)
                  [("demo", ⟨"u", "t", "good"⟩)] [("local", Entry.file "good")]
                  "demo" "local").fs "demo").fetched = false :=
  import_local_commit (fun c => c) [("demo", ⟨"u", "t", "good"⟩)]
    [("local", Entry.file "good")] "demo" "local" "good" ⟨"u", "t", "good"⟩
    (by decide) (by decide) (by decide) (by decide)

/-- C4: idempotence of resolve — if a resolve call succeeds and neither the
cache nor the descriptor source is modified in between, the immediately
retried call returns the same path and performs no network transfer. -/
theorem resolve_idempotent (h : Content → String) (cfgs : Configs)
    (net : Net) (s : FS) (res_name : String) (p : Path)
    (hfirst : (get_resource h cfgs net s res_name).result = .ok p) :
    (get_resource h cfgs net (get_resource h cfgs net s res_name).fs
        res_name).result = .ok p
      ∧ (get_resource h cfgs net (get_resource h cfgs net s res_name).fs
          res_name).fetched = false := by
  cases hc : Configs.find cfgs res_name with
  | none => simp [get_resource, get_config, hc] at hfirst
  | some cfg =>
    cases hm : FS.get s (meta_path_of res_name) with
    | some e =>
      cases e with
      | file c => simp [get_resource, get_config, hc, hm] at hfirst
      | meta lp =>
        cases hh : get_hashtag h s lp with
        | error err => simp [get_resource, get_config, hc, hm, hh] at hfirst
        | ok tag =>
          by_cases htag : tag = cfg.hashtag
          · have hfs : (get_resource h cfgs net s res_name).fs = s := by
              simp [get_resource, get_config, hc, hm, hh, htag]
            rw [hfs]
            refine ⟨hfirst, ?_⟩
            simp [get_resource, get_config, hc, hm, hh, htag]
          · simp [get_resource, get_config, hc, hm, hh, htag] at hfirst
    | none =>
      have hget := FS.get_set_same s (cache_path_of res_name)
        (Entry.file (net cfg.link))
      by_cases htag : h (net cfg.link) = cfg.hashtag
      · have hp : p = cache_path_of res_name := by
          simp [get_resource, get_config, hc, hm, get_hashtag, preprocess,
            postprocess, hget, Entry.bytes, htag] at hfirst
          exact hfirst.symm
        have hfs : (get_resource h cfgs net s res_name).fs
            = FS.set (FS.set s (cache_path_of res_name)
                (Entry.file (net cfg.link))) (meta_path_of res_name)
                (Entry.meta (cache_path_of res_name)) := by
          simp [get_resource, get_config, hc, hm, get_hashtag, preprocess,
            hget, Entry.bytes, htag]
        have hmeta2 := FS.get_set_same (FS.set s (cache_path_of res_name)
          (Entry.file (net cfg.link))) (meta_path_of res_name)
          (Entry.meta (cache_path_of res_name))
        have hart2 : FS.get (FS.set (FS.set s (cache_path_of res_name)
            (Entry.file (net cfg.link))) (meta_path_of res_name)
            (Entry.meta (cache_path_of res_name))) (cache_path_of res_name)
            = some (Entry.file (net cfg.link)) := by
          rw [FS.get_set_ne _ _ _ _ (cache_path_ne_meta_path res_name).symm]
          exact hget
        rw [hfs, hp]
        constructor <;>
          simp [get_resource, get_config, hc, hmeta2, get_hashtag, hart2,
            Entry.bytes, htag, postprocess]
      · exfalso
        simp [get_resource, get_config, hc, hm, get_hashtag, preprocess,
          hget, Entry.bytes, htag] at hfirst

/-- Witness for C4 at a concrete input: a successful first download followed
by a hit. -/
theorem resolve_idempotent_witness :
    (get_resource (fun c => c) [("demo", ⟨"u", "t", "good"⟩)]
        (fun _ => "good")
        (get_resource (fun c => c) [("demo", ⟨"u", "t", "good"⟩)]
          (fun _ => "good") [] "demo").fs "demo").result
      = .ok (cache_path_of "demo")
      ∧ (get_resource (fun c => c) [("demo", ⟨"u", "t", "good"⟩)]
          (fun _ => "good")
          (get_resource (fun c => c) [("demo", ⟨"u", "t", "good"⟩)]
            (fun _ => "good") [] "demo").fs "demo").fetched = false :=
  resolve_idempotent (fun c => c) [("demo", ⟨"u", "t", "good"⟩)]
    (fun _ => "good") [] "demo" (cache_path_of "demo") (by decide)

/-- C5 counterexample: the content hasher of the source uses MD5
(hashlib.md5 in get_file_md5, dirhash(file_path, 'md5') in get_hashtag),
whose digest is 128 bits for files and directories alike, so the digest is
not at least 256 bits. -/
theorem md5_digest_bits_counterexample :
    digestBits (get_hashtag_algorithm false) = 128
      ∧ digestBits (get_hashtag_algorithm true) = 128
      ∧ ¬ 256 ≤ digestBits (get_hashtag_algorithm false) := by decide

/-- C5 amended: the content hasher uses MD5 for both files and directories,
so every digest it returns encodes a 128-bit hash value. -/
theorem md5_digest_bits :
    ∀ is_dir : Bool, get_hashtag_algorithm is_dir = "md5"
      ∧ digestBits (get_hashtag_algorithm is_dir) = 128 := by decide

end Contk
